import Mathlib

/-!
Verification development for the position_scraper repository.

The Python sources under scrutiny are src/scholar_scraper.py,
src/firecrawl_helper.py, src/data_extractor.py and src/utils.py.  The pure
computational cores of these files are embedded below as executable Lean
definitions (strings as lists of characters, timestamps as rationals, the
network and the two external extraction services as explicit oracles), and
the documented behavioural properties are settled as theorems about those
definitions.
-/

namespace PositionScraper

/-! ## Character and string primitives

Python-level string operations used by the scrapers, modelled on `List Char`.
Python's `str.lower` is modelled by core `Char.toLower` applied characterwise,
which agrees with Python on the ASCII range (the only range the validating
email grammar of the source accepts). -/

/-- The characters matched by Python's regex class `\s` (ASCII range), which is
also the set stripped by `str.strip()`. -/
def isPySpace (c : Char) : Bool :=
  c = ' ' || c = '\t' || c = '\n' || c = '\r' || c = '\x0b' || c = '\x0c'

/-- Python `str.lower`, characterwise (exact on ASCII input). -/
def lowerChars (cs : List Char) : List Char := cs.map Char.toLower

/-- Python `str.strip()`: drop leading and trailing whitespace. -/
def pyStrip (cs : List Char) : List Char :=
  ((cs.dropWhile isPySpace).reverse.dropWhile isPySpace).reverse

/-- Leftmost, non-overlapping replacement of the literal pattern `pat` by
`repl`, as Python's `str.replace` (and `re.sub` with a literal pattern)
performs.  Structural recursion on a fuel argument; with `fuel = s.length`
and a non-empty pattern (the only patterns the source uses) this is exactly
the Python semantics. -/
def replaceSubAux (pat repl : List Char) : Nat → List Char → List Char
  | 0, s => s
  | _ + 1, [] => []
  | fuel + 1, c :: rest =>
    if pat.isPrefixOf (c :: rest) && !pat.isEmpty then
      repl ++ replaceSubAux pat repl fuel ((c :: rest).drop pat.length)
    else
      c :: replaceSubAux pat repl fuel rest

/-- Python `s.replace(pat, repl)` for a non-empty literal pattern. -/
def replaceSub (pat repl s : List Char) : List Char :=
  replaceSubAux pat repl s.length s

/-- Apply a sequence of literal replacements left to right (the iteration
order of the pattern dict in `normalize_obfuscated_email`). -/
def applyReplacements (prs : List (List Char × List Char)) (s : List Char) : List Char :=
  prs.foldl (fun acc pr => replaceSub pr.1 pr.2 acc) s

/-! ## normalize_obfuscated_email (src/scholar_scraper.py, lines 56-85)

The function lower-cases its input, deletes the literal prefixes
`contact:`, `email:`, `contact info:`, strips outer whitespace, applies the
obfuscation-pattern replacements of its pattern dict in insertion order
(`[at]`, `(at)`, ` at `, `[dot]`, `(dot)`, ` dot `, `{dot}` — the braces of
the last pattern appear below as `\x7b`/`\x7d` escapes — and finally
`\s+ -> ''`, i.e. deletion of every whitespace character), then validates the
outcome against the regex
`^[A-Za-z0-9._%+-]+@[A-Za-z0-9.-]+\.[A-Z|a-z]{2,}$`, returning it on a match
and `None` otherwise.  The `re.IGNORECASE` flag is immaterial: the text was
already lower-cased and the patterns are lower case. -/

/-- The three literal deletions performed before the pattern dict. -/
def removalPats : List (List Char × List Char) :=
  [("contact:".data, []), ("email:".data, []), ("contact info:".data, [])]

/-- The obfuscation replacements of the pattern dict, in insertion order
(the trailing `\s+ -> ''` entry is the whitespace deletion applied after). -/
def obfuscationPats : List (List Char × List Char) :=
  [("[at]".data, "@".data), ("(at)".data, "@".data), (" at ".data, "@".data),
   ("[dot]".data, ".".data), ("(dot)".data, ".".data), (" dot ".data, ".".data),
   ("\x7bdot\x7d".data, ".".data)]

/-- The full de-obfuscation pipeline applied to the input before validation. -/
def deobfuscate (s : List Char) : List Char :=
  (applyReplacements obfuscationPats
      (pyStrip (applyReplacements removalPats (lowerChars s)))).filter
    (fun c => !isPySpace c)

/-- Character class `[A-Za-z0-9._%+-]` (the local part of the grammar). -/
def isLocalChar (c : Char) : Bool :=
  c.isAlpha || c.isDigit || c = '.' || c = '_' || c = '%' || c = '+' || c = '-'

/-- Character class `[A-Za-z0-9.-]` (the domain part of the grammar). -/
def isDomainChar (c : Char) : Bool :=
  c.isAlpha || c.isDigit || c = '.' || c = '-'

/-- Character class `[A-Z|a-z]` (the top-level-domain part; it admits `|`
verbatim, as written in the source regex). -/
def isTldChar (c : Char) : Bool :=
  c.isAlpha || c = '|'

/-- Whether `[A-Za-z0-9.-]+\.[A-Z|a-z]{2,}$` matches the whole list: some dot
splits it into a non-empty run of domain characters and a final run of at
least two tld characters. -/
def emailDomainOk (cs : List Char) : Bool :=
  (List.range cs.length).any fun i =>
    cs.getD i ' ' = '.' && decide (0 < i) && (cs.take i).all isDomainChar &&
      decide (i + 3 ≤ cs.length) && (cs.drop (i + 1)).all isTldChar

/-- Whole-string match of `^[A-Za-z0-9._%+-]+@[A-Za-z0-9.-]+\.[A-Z|a-z]{2,}$`.
Since `@` is not a local character, a match forces the local part to be the
maximal leading run of local characters, followed by `@` and a matching
domain. -/
def emailMatch (cs : List Char) : Bool :=
  let l := cs.takeWhile isLocalChar
  match cs.drop l.length with
  | '@' :: rest => !l.isEmpty && emailDomainOk rest
  | _ => false

/-- `normalize_obfuscated_email` from src/scholar_scraper.py: de-obfuscate,
then return the result when it validates as an address, `None` otherwise
(the surrounding `try/except` never fires on the pure pipeline). -/
def normalize_obfuscated_email (text : String) : Option String :=
  let t := deobfuscate text.data
  if emailMatch t then some (String.mk t) else none

/-! ## truncate_content (src/data_extractor.py, lines 14-65)

Content at or below the `max_chars` budget (or empty) is returned unchanged.
Otherwise the content is split on newlines; each line is stripped, empty
lines and lines containing a boilerplate pattern are skipped, collection
starts at the first line containing a main-content marker, and the loop
breaks once the newline-join of the collected lines reaches the budget.  If
nothing was collected, the middle quartile-to-three-quartile slice of the
raw lines is used instead.  The lines are then joined with spaces; if the
join still exceeds the budget the function returns
`result[:max_chars//2] + "\n...[content truncated]...\n" + result[-max_chars//2:]`
(note Python's floor division: the tail slice keeps the last
`ceil(max_chars/2)` characters, and for `max_chars = 0` the slice `[-0:]` is
the whole string). -/

/-- Python `content.split('\n')`: split on every newline, keeping empty
pieces. -/
def splitLines : List Char → List (List Char)
  | [] => [[]]
  | '\n' :: rest => [] :: splitLines rest
  | c :: rest =>
    match splitLines rest with
    | [] => [[c]]
    | h :: t => (c :: h) :: t

/-- Substring containment (Python's `pat in s`). -/
def containsSub (pat s : List Char) : Bool :=
  (List.range (s.length + 1)).any fun i => pat.isPrefixOf (s.drop i)

/-- The `skip_patterns` list of boilerplate markers. -/
def skipPatterns : List (List Char) :=
  ["navigation".data, "menu".data, "copyright".data, "footer".data,
   "header".data, "privacy policy".data, "terms of use".data,
   "skip to content".data, "search".data, "social media".data,
   "follow us".data, "contact us".data, "all rights reserved".data,
   "Â©".data, "cookie".data]

/-- The main-content markers that switch collection on. -/
def mainMarkers : List (List Char) :=
  ["biography".data, "research".data, "publications".data, "about".data,
   "profile".data]

/-- The explicit truncation marker inserted between head and tail. -/
def truncMarker : List Char := "\n...[content truncated]...\n".data

/-- The line-filtering loop of `truncate_content`: strip, skip empties and
boilerplate, start collecting at a main-content marker, break once the
newline-join of the collected lines reaches the budget. -/
def truncLoop (maxChars : Nat) :
    List (List Char) → List (List Char) → Bool → List (List Char)
  | [], filtered, _ => filtered
  | line :: rest, filtered, inMain =>
    let l := pyStrip line
    if l.isEmpty then truncLoop maxChars rest filtered inMain
    else if skipPatterns.any (fun p => containsSub p (lowerChars l)) then
      truncLoop maxChars rest filtered inMain
    else
      let inMain1 := inMain || mainMarkers.any (fun m => containsSub m (lowerChars l))
      let filtered1 := if inMain1 then filtered ++ [l] else filtered
      if maxChars ≤ (List.intercalate ['\n'] filtered1).length then filtered1
      else truncLoop maxChars rest filtered1 inMain1

/-- Python `s[i:]` for an integer index, as used with `i = -max_chars//2`
(negative indices count from the end and clamp at the start; `-0` is `0`). -/
def pySliceFrom (s : List Char) (i : Int) : List Char :=
  if 0 ≤ i then s.drop i.toNat else s.drop (s.length - (-i).toNat)

/-- The space-join of the collected lines (middle quartile-to-three-quartile
slice of the raw lines when the filtering loop collected nothing). -/
def truncResult (content : List Char) (maxChars : Nat) : List Char :=
  let lines := splitLines content
  let filtered := truncLoop maxChars lines [] false
  let filtered1 :=
    if filtered.isEmpty then
      (lines.drop (lines.length / 4)).take (lines.length * 3 / 4 - lines.length / 4)
    else filtered
  List.intercalate [' '] filtered1

/-- `truncate_content` from src/data_extractor.py.  The default budget at the
call site is `10000 // 3 = 3333`. -/
def truncate_content (content : String) (maxChars : Nat) : String :=
  if content.data.isEmpty || content.data.length ≤ maxChars then content
  else
    let result := truncResult content.data maxChars
    if maxChars < result.length then
      String.mk (result.take (maxChars / 2) ++ truncMarker ++
        pySliceFrom result (Int.fdiv (-(maxChars : Int)) 2))
    else String.mk result

/-! ## RateLimiter (src/firecrawl_helper.py, lines 10-33)

`wait_if_needed` reads the clock (`now`), pops queue entries strictly older
than the window, and when the queue is still at capacity sleeps until the
oldest entry ages out — but it then appends `now`, the timestamp captured
before the sleep, not the post-sleep time.  Instants are modelled as
integers (Python datetimes have a fixed microsecond resolution, so time
points form an integer grid); the deque is a list, oldest first. -/

/-- The cleanup loop: pop entries with `now - t > time_window`. -/
def rlCleanup (timeWindow now : ℤ) (q : List ℤ) : List ℤ :=
  q.dropWhile fun t => decide (timeWindow < now - t)

/-- One `wait_if_needed` call at clock value `now`: returns the time slept
and the deque after the call.  The appended timestamp is the pre-sleep
`now`, exactly as in the source. -/
def wait_if_needed (maxRequests : Nat) (timeWindow now : ℤ) (q : List ℤ) :
    ℤ × List ℤ :=
  let q1 := rlCleanup timeWindow now q
  let wait :=
    if maxRequests ≤ q1.length then
      match q1 with
      | [] => 0
      | t0 :: _ => t0 + timeWindow - now
    else 0
  (if 0 < wait then wait else 0, q1 ++ [now])

/-- Run a sequence of `wait_if_needed` calls; `arrivals` are the clock values
at which the successive callers enter the function.  Returns the list of
sleep durations and the final deque. -/
def runRateLimiter (maxRequests : Nat) (timeWindow : ℤ) :
    List ℤ → List ℤ → List ℤ × List ℤ
  | [], q => ([], q)
  | t :: ts, q =>
    let r := wait_if_needed maxRequests timeWindow t q
    let rest := runRateLimiter maxRequests timeWindow ts r.2
    (r.1 :: rest.1, rest.2)

/-! ## Tier merge in get_profile_details (src/scholar_scraper.py, lines
187-286) and crawl_personal_page (src/firecrawl_helper.py, lines 35-108)

A researcher dict after the line-245 `update` holds every key below (the
empty string models a falsy/absent value).  Tier 1 is the
Firecrawl + OpenAI pass `crawl_personal_page`, whose success path filters
empty values out of its result dict but always keeps `funding_likelihood`
(defaulted to `Medium` when the extractor produced no classification) and
always includes `source_url := url`; its failure path returns the falsy
`{}`.  Tier 2 is the fallback `extract_email_from_webpage`, consulted only
when the record still has no email and has a website, and able to supply
only the email field. -/

structure Researcher where
  name : String := ""
  profile_url : String := ""
  profile_id : String := ""
  email : String := ""
  website : String := ""
  orcid : String := ""
  position : String := ""
  interests : String := ""
  institute : String := ""
  department : String := ""
  advisor : String := ""
  funding_likelihood : String := ""
  citations : String := ""
  h_index : String := ""
  i10_index : String := ""
  source_url : String := ""
  deriving DecidableEq

/-- The field map parsed from the structured extractor's JSON answer, after
`extract_researcher_data` dropped falsy values and empty composites (a map
from the schema keys to optional values). -/
structure ExtractedData where
  position : Option String := none
  institute : Option String := none
  department : Option String := none
  advisor : Option String := none
  interests : Option String := none
  email : Option String := none
  funding_likelihood : Option String := none
  deriving DecidableEq

/-- The result dict of `crawl_personal_page` on its success path: a key is
present iff its value is non-empty, except `funding_likelihood` (always
kept, defaulted to `Medium`) and `source_url` (the crawled url). -/
structure FirecrawlResult where
  position : Option String
  institute : Option String
  department : Option String
  advisor : Option String
  interests : Option String
  email : Option String
  funding_likelihood : String
  source_url : Option String
  deriving DecidableEq

/-- `{k: v for k, v in result.items() if v or k == 'funding_likelihood'}`. -/
def keepNonempty (s : String) : Option String :=
  if s = "" then none else some s

/-- The dict `crawl_personal_page` returns when scraping and extraction
succeed: `extracted.get(key, '')` per schema field, `funding_likelihood`
defaulted to `Medium`, `source_url := url`, then the falsy-value filter. -/
def crawl_personal_page (extracted : ExtractedData) (url : String) :
    FirecrawlResult :=
  { position := keepNonempty (extracted.position.getD "")
    institute := keepNonempty (extracted.institute.getD "")
    department := keepNonempty (extracted.department.getD "")
    advisor := keepNonempty (extracted.advisor.getD "")
    interests := keepNonempty (extracted.interests.getD "")
    email := keepNonempty (extracted.email.getD "")
    funding_likelihood := extracted.funding_likelihood.getD "Medium"
    source_url := keepNonempty url }

/-- Python `researcher.update(firecrawl_data)`: present keys overwrite. -/
def updateWith (r : Researcher) (f : FirecrawlResult) : Researcher :=
  { r with
    position := f.position.getD r.position
    institute := f.institute.getD r.institute
    department := f.department.getD r.department
    advisor := f.advisor.getD r.advisor
    interests := f.interests.getD r.interests
    email := f.email.getD r.email
    funding_likelihood := f.funding_likelihood
    source_url := f.source_url.getD r.source_url }

/-- The merge steps of `get_profile_details` (lines 260-279): `base` is the
record right after the line-245 update; `tier1` is the outcome of
`crawl_personal_page` when the record has a website (`none` models the
falsy `{}` of the failure path); `tier2` the outcome of
`extract_email_from_webpage`.  Tier 1's email, when present, is written
first (line 266) and again by the `update`; Tier 2 runs only when the email
is still empty and a website exists. -/
def get_profile_details_merge (base : Researcher) (tier1 : Option ExtractedData)
    (tier2 : Option String) : Researcher :=
  let r1 :=
    if base.website ≠ "" then
      match tier1 with
      | some d =>
        let fc := crawl_personal_page d base.website
        let r0 :=
          match fc.email with
          | some e => { base with email := e }
          | none => base
        updateWith r0 fc
      | none => base
    else base
  if r1.email = "" ∧ r1.website ≠ "" then
    match tier2 with
    | some e => { r1 with email := e }
    | none => r1
  else r1

/-! ## search_researchers_by_label (src/scholar_scraper.py, lines 288-343)

The page loop `for page in range(pages)`:  each iteration requests the
listing page and parses it (abstracted as an oracle from the page number to
either a page-level failure — the inner `except` branch — or the stub list
and the `after_author` continuation token), appends the detail-fetched
profiles to `self.researchers`, and breaks when the token is empty.  On a
page-level failure the handler calls `save_results` on the current
`self.researchers` and then `continue`s — but `save_results` itself only
succeeds when at least one record has been collected: every parsed
researcher dict carries the `name`, `profile_url` and `profile_id` keys, so
`pd.DataFrame(self.researchers)` has the columns `clean_scholar_csv` needs
exactly when the list is non-empty, while on an empty list the frame has no
columns at all and `sort_values('name')` raises `KeyError` (pandas
`drop_duplicates` short-circuits on an empty frame before validating its
subset).  That `KeyError` escapes the page loop — the outer handler catches
only `KeyboardInterrupt` — so a failure with nothing collected aborts the
whole crawl with no checkpoint written and no further page requested; the
`aborted` flag records that the returned state is the one at which the
exception escaped.  The model is polymorphic in the stub type; `details`
stands for `get_profile_details` (the thread pool is a per-page fan-out
whose results are all appended before the next page, modelled in dispatch
order). -/

structure CrawlResult (α : Type) where
  researchers : List α
  checkpoints : List (List α)
  fetched : List Nat
  aborted : Bool
  deriving DecidableEq

/-- The page loop with `remaining` iterations left, current `page` index,
accumulated researchers, checkpoints written so far, and pages fetched.  On
a page failure with a non-empty accumulator the snapshot is checkpointed
and the loop continues; with an empty accumulator `save_results` raises
(`sort_values('name')` on the columnless empty frame) and the crawl aborts
on the spot. -/
def searchLoop (src : Nat → Except Unit (List α × String)) (details : α → α) :
    Nat → Nat → List α → List (List α) → List Nat → CrawlResult α
  | 0, _, res, cps, fs => ⟨res, cps, fs, false⟩
  | rem + 1, page, res, cps, fs =>
    match src page with
    | .error _ =>
      if res.isEmpty then ⟨res, cps, fs ++ [page], true⟩
      else searchLoop src details rem (page + 1) res (cps ++ [res]) (fs ++ [page])
    | .ok (stubs, tok) =>
      let res1 := res ++ stubs.map details
      if tok = "" then ⟨res1, cps, fs ++ [page], false⟩
      else searchLoop src details rem (page + 1) res1 cps (fs ++ [page])

/-- `search_researchers_by_label` with a page budget of `pages`. -/
def search_researchers_by_label (src : Nat → Except Unit (List α × String))
    (details : α → α) (pages : Nat) : CrawlResult α :=
  searchLoop src details pages 0 [] [] []

/-! ## clean_scholar_csv (src/scholar_scraper.py, lines 18-54)

The function copies the input frame into `new_df`, rebinds `df` to
`df.drop_duplicates(subset='profile_id')` (first occurrence kept), and then
assigns `new_df[col] = df[col].apply(normalize)` for the six text columns.
Pandas aligns that assignment on the row index: rows of `new_df` whose index
was dropped from `df` receive NaN in the text columns — but they remain rows
of `new_df`, which is what is sorted and returned.  The normalization is
NFKD followed by ASCII-encode-with-ignore, modelled characterwise (exact on
ASCII input; characters outside ASCII are dropped). -/

/-- NFKD + ASCII-ignore text normalization, modelled characterwise. -/
def asciiIgnore (s : String) : String :=
  String.mk (s.data.filter fun c => decide (c.toNat < 128))

/-- An output row of the cleaned frame: the six normalized text columns can
be NaN (`none`) on rows whose index was dropped from the deduplicated frame;
the remaining columns keep their original values. -/
structure CleanedRow where
  name : Option String
  position : Option String
  institute : Option String
  department : Option String
  advisor : Option String
  interests : Option String
  email : String
  website : String
  profile_id : String
  orcid : String
  profile_url : String
  source_url : String
  funding_likelihood : String
  citations : String
  h_index : String
  i10_index : String
  deriving DecidableEq

/-- `df.drop_duplicates(subset='profile_id')` on an index-tagged frame:
keep the first row of each `profile_id`. -/
def dropDupFirst : List (Nat × Researcher) → List String → List (Nat × Researcher)
  | [], _ => []
  | (i, r) :: rest, seen =>
    if r.profile_id ∈ seen then dropDupFirst rest seen
    else (i, r) :: dropDupFirst rest (r.profile_id :: seen)

/-- Sort key comparison for `sort_values('name')`: NaN sorts last. -/
def nameLe (a b : Option String) : Bool :=
  match a, b with
  | none, none => true
  | none, some _ => false
  | some _, none => true
  | some x, some y => !decide (y < x)

/-- Insertion sort by the name column (the sort permutes rows; tie order is
irrelevant to the properties below). -/
def insertByName (row : CleanedRow) : List CleanedRow → List CleanedRow
  | [] => [row]
  | r :: rest =>
    if nameLe r.name row.name then r :: insertByName row rest
    else row :: r :: rest

def sortByName : List CleanedRow → List CleanedRow
  | [] => []
  | r :: rest => insertByName r (sortByName rest)

/-- `clean_scholar_csv`: the returned frame is `new_df` — every input row,
with the six text columns fetched by index from the deduplicated `df`
(NaN where the index was dropped), sorted by name.  The later column
selection and header upper-casing are presentation only. -/
def clean_scholar_csv (rows : List Researcher) : List CleanedRow :=
  let iz := rows.enum
  let dd := dropDupFirst iz []
  let cleaned := iz.map fun p =>
    { name := (dd.lookup p.1).map fun r => asciiIgnore r.name
      position := (dd.lookup p.1).map fun r => asciiIgnore r.position
      institute := (dd.lookup p.1).map fun r => asciiIgnore r.institute
      department := (dd.lookup p.1).map fun r => asciiIgnore r.department
      advisor := (dd.lookup p.1).map fun r => asciiIgnore r.advisor
      interests := (dd.lookup p.1).map fun r => asciiIgnore r.interests
      email := p.2.email
      website := p.2.website
      profile_id := p.2.profile_id
      orcid := p.2.orcid
      profile_url := p.2.profile_url
      source_url := p.2.source_url
      funding_likelihood := p.2.funding_likelihood
      citations := p.2.citations
      h_index := p.2.h_index
      i10_index := p.2.i10_index : CleanedRow }
  sortByName cleaned

/-! ## Concrete scenario inputs used by the theorems below -/

/-- Two researcher records sharing the identity key `p`. -/
def dupFirst : Researcher :=
  { name := "A", profile_id := "p", profile_url := "https://scholar/a",
    email := "first@x.edu" }

def dupSecond : Researcher :=
  { name := "B", profile_id := "p", profile_url := "https://scholar/a",
    email := "second@x.edu" }

/-- A record whose profile page supplied a position, with a website. -/
def profilePageBase : Researcher :=
  { name := "R. One", profile_id := "id1", profile_url := "https://scholar/u1",
    position := "Lecturer", website := "http://one.example" }

/-- A record with a website whose crawl failed (Tier 1 returned the falsy
empty dict). -/
def crawlFailedBase : Researcher :=
  { name := "R. Two", profile_id := "id2", profile_url := "https://scholar/u2",
    website := "http://two.example" }

/-- A stub-derived record with a website and no source_url. -/
def stubCarriedBase : Researcher :=
  { name := "R. Three", profile_id := "id3", profile_url := "https://scholar/u3",
    website := "http://three.example" }

/-- Tier-1 extraction carrying only a position. -/
def tierOnePosition : ExtractedData := { position := some "Professor" }

/-- A listing source answering every page with one stub and the same
non-empty continuation cursor. -/
def constCursorSrc : Nat → Except Unit (List String × String) :=
  fun _ => Except.ok (["stub"], "TOKEN")

/-- A listing source failing on page 0 and answering later pages normally. -/
def failThenOkSrc : Nat → Except Unit (List String × String)
  | 0 => Except.error ()
  | _ + 1 => Except.ok (["stub"], "TOKEN")

/-- A listing source succeeding on page 0, failing on page 1 and answering
later pages normally. -/
def okFailOkSrc : Nat → Except Unit (List String × String)
  | 1 => Except.error ()
  | _ => Except.ok (["stub"], "TOKEN")

/-! ## Helper lemmas -/

/-- `Char.ofNat` is faithful on codepoints below the surrogate range. -/
theorem toNat_ofNat_small (n : Nat) (h : n < 55296) : (Char.ofNat n).toNat = n := by
  rw [Char.ofNat, dif_pos (Or.inl h)]
  rfl

/-- Lower-casing never produces an ASCII upper-case letter. -/
theorem toLower_not_upper (c : Char) :
    ¬(65 ≤ (Char.toLower c).toNat ∧ (Char.toLower c).toNat ≤ 90) := by
  by_cases h : c.toNat ≥ 65 ∧ c.toNat ≤ 90
  · simp only [Char.toLower, if_pos h]
    rw [toNat_ofNat_small _ (by omega)]
    omega
  · simp only [Char.toLower]
    rw [if_neg (by omega)]
    omega

theorem mem_replaceSubAux (pat repl : List Char) :
    ∀ (fuel : Nat) (s : List Char) (c : Char), c ∈ replaceSubAux pat repl fuel s →
      c ∈ s ∨ c ∈ repl := by
  intro fuel
  induction fuel with
  | zero => exact fun s c h => Or.inl h
  | succ n ih =>
    intro s c h
    match s with
    | [] => simp [replaceSubAux] at h
    | d :: rest =>
      rw [replaceSubAux] at h
      split at h
      · rcases List.mem_append.mp h with hr | hrec
        · exact Or.inr hr
        · rcases ih _ _ hrec with hs | hr
          · exact Or.inl (List.drop_sublist _ _ |>.mem hs)
          · exact Or.inr hr
      · rcases List.mem_cons.mp h with rfl | hrec
        · exact Or.inl (List.mem_cons_self _ _)
        · rcases ih _ _ hrec with hs | hr
          · exact Or.inl (List.mem_cons_of_mem _ hs)
          · exact Or.inr hr

theorem mem_replaceSub (pat repl s : List Char) (c : Char)
    (h : c ∈ replaceSub pat repl s) : c ∈ s ∨ c ∈ repl :=
  mem_replaceSubAux pat repl s.length s c h

theorem mem_applyReplacements :
    ∀ (prs : List (List Char × List Char)) (s : List Char) (c : Char),
      c ∈ applyReplacements prs s → c ∈ s ∨ ∃ pr ∈ prs, c ∈ pr.2 := by
  intro prs
  induction prs with
  | nil => exact fun s c h => Or.inl h
  | cons pr rest ih =>
    intro s c h
    rcases ih _ _ h with hs | ⟨q, hq, hc⟩
    · rcases mem_replaceSub _ _ _ _ hs with h1 | h2
      · exact Or.inl h1
      · exact Or.inr ⟨pr, List.mem_cons_self _ _, h2⟩
    · exact Or.inr ⟨q, List.mem_cons_of_mem _ hq, hc⟩

theorem mem_pyStrip (s : List Char) (c : Char) (h : c ∈ pyStrip s) : c ∈ s := by
  unfold pyStrip at h
  rw [List.mem_reverse] at h
  have h1 := (List.dropWhile_sublist (l := (s.dropWhile isPySpace).reverse) isPySpace).mem h
  rw [List.mem_reverse] at h1
  exact (List.dropWhile_sublist isPySpace).mem h1

theorem mem_lowerChars (s : List Char) (c : Char) (h : c ∈ lowerChars s) :
    ∃ d ∈ s, c = Char.toLower d := by
  rcases List.mem_map.mp h with ⟨d, hd, rfl⟩
  exact ⟨d, hd, rfl⟩

/-- Closed form of the Tier-1/Tier-2 merge when the record has a website and
Tier 1 succeeded: non-empty Tier-1 fields overwrite, funding_likelihood is
defaulted, source_url becomes the crawled website, and the email falls back
from Tier 1 to the profile-page value to Tier 2. -/
theorem merge_fields (base : Researcher) (d : ExtractedData) (t2 : Option String)
    (hw : base.website ≠ "") :
    get_profile_details_merge base (some d) t2 =
      { base with
        position := (keepNonempty (d.position.getD "")).getD base.position
        institute := (keepNonempty (d.institute.getD "")).getD base.institute
        department := (keepNonempty (d.department.getD "")).getD base.department
        advisor := (keepNonempty (d.advisor.getD "")).getD base.advisor
        interests := (keepNonempty (d.interests.getD "")).getD base.interests
        funding_likelihood := d.funding_likelihood.getD "Medium"
        source_url := base.website
        email :=
          if d.email.getD "" ≠ "" then d.email.getD ""
          else if base.email ≠ "" then base.email
          else t2.getD "" } := by
  unfold get_profile_details_merge crawl_personal_page updateWith keepNonempty
  by_cases he : d.email.getD "" = ""
  · by_cases hbe : base.email = ""
    · cases t2 with
      | none => simp [hw, he, hbe]
      | some e => simp [hw, he, hbe]
    · simp [hw, he, hbe]
  · simp [hw, he]

/-- When Tier 1 failed (the falsy `{}`), only the Tier-2 email fallback can
change the record. -/
theorem merge_no_tier1 (base : Researcher) (t2 : Option String) :
    get_profile_details_merge base none t2 =
      if base.email = "" ∧ base.website ≠ "" then
        match t2 with
        | some e => { base with email := e }
        | none => base
      else base := by
  unfold get_profile_details_merge
  by_cases hw : base.website = "" <;> simp [hw]

/-- Without a website neither tier is consulted: the merge is the identity. -/
theorem merge_no_website (base : Researcher) (t1 : Option ExtractedData)
    (t2 : Option String) (hw : base.website = "") :
    get_profile_details_merge base t1 t2 = base := by
  unfold get_profile_details_merge
  simp [hw]

/-- The Python tail slice `s[-m//2:]` for a positive budget `m ≤ s.length`
keeps exactly the last `⌈m/2⌉` characters. -/
theorem pySliceFrom_neg_half (s : List Char) (m : Nat) (h1 : 1 ≤ m)
    (h2 : m ≤ s.length) :
    pySliceFrom s (Int.fdiv (-(m : Int)) 2) = s.drop (s.length - (m + 1) / 2) ∧
    (pySliceFrom s (Int.fdiv (-(m : Int)) 2)).length = (m + 1) / 2 := by
  obtain ⟨k, rfl⟩ : ∃ k, m = k + 1 := ⟨m - 1, by omega⟩
  have hfd : Int.fdiv (-(((k + 1) : Nat) : Int)) 2 = Int.negSucc (k / 2) := rfl
  unfold pySliceFrom
  rw [hfd, if_neg (by simp)]
  have htn : (-(Int.negSucc (k / 2))).toNat = k / 2 + 1 := by
    simp [Int.neg_negSucc]
    omega
  rw [htn]
  constructor
  · congr 1
    omega
  · rw [List.length_drop]
    omega

/-- The loop never fetches more pages than its remaining budget. -/
theorem searchLoop_fetched_le {α : Type} (src : Nat → Except Unit (List α × String))
    (details : α → α) :
    ∀ (rem page : Nat) (res : List α) (cps : List (List α)) (fs : List Nat),
      (searchLoop src details rem page res cps fs).fetched.length ≤ fs.length + rem := by
  intro rem
  induction rem with
  | zero => intro page res cps fs; simp [searchLoop]
  | succ n ih =>
    intro page res cps fs
    rw [searchLoop]
    cases hsrc : src page with
    | error e =>
      dsimp only
      by_cases hres : res.isEmpty
      · rw [if_pos hres]
        simp only [List.length_append, List.length_cons, List.length_nil]
        omega
      · rw [if_neg hres]
        calc (searchLoop src details n (page + 1) res (cps ++ [res]) (fs ++ [page])).fetched.length
            ≤ (fs ++ [page]).length + n := ih _ _ _ _
          _ ≤ fs.length + (n + 1) := by simp only [List.length_append, List.length_cons, List.length_nil]; omega
    | ok pr =>
      obtain ⟨stubs, tok⟩ := pr
      dsimp only
      by_cases htok : tok = ""
      · rw [if_pos htok]
        simp [List.length_append]
      · rw [if_neg htok]
        calc (searchLoop src details n (page + 1) (res ++ stubs.map details) cps (fs ++ [page])).fetched.length
            ≤ (fs ++ [page]).length + n := ih _ _ _ _
          _ ≤ fs.length + (n + 1) := by simp only [List.length_append, List.length_cons, List.length_nil]; omega

/-- When every page in the remaining budget parses with a non-empty token the
loop fetches all of them, whatever the tokens are. -/
theorem searchLoop_all_ok {α : Type} (src : Nat → Except Unit (List α × String))
    (details : α → α) :
    ∀ (rem page : Nat) (res : List α) (cps : List (List α)) (fs : List Nat),
      (∀ i, page ≤ i → i < page + rem →
        ∃ stubs tok, src i = Except.ok (stubs, tok) ∧ tok ≠ "") →
      (searchLoop src details rem page res cps fs).fetched = fs ++ List.range' page rem := by
  intro rem
  induction rem with
  | zero => intro page res cps fs _; simp [searchLoop]
  | succ n ih =>
    intro page res cps fs hok
    obtain ⟨stubs, tok, hsrc, htok⟩ := hok page (Nat.le_refl _) (by omega)
    rw [searchLoop, hsrc]
    dsimp only
    rw [if_neg htok]
    rw [ih (page + 1) _ _ _ (fun i h1 h2 => hok i (by omega) (by omega))]
    rw [List.range'_succ page n 1]
    simp

/-! ## Claim theorems -/

set_option maxRecDepth 8000 in
/-- C1: the claim fails on the code, and the code contradicts its own
comment ("Remove duplicates based on profile_id"): `clean_scholar_csv`
computes the deduplication on the rebound `df` but sorts and returns
`new_df`, so after inserting two records with identity key "p" the returned
frame still holds two rows with that key; the duplicate row keeps its own
email while its six text columns have become NaN through the index-aligned
column assignment. -/
theorem clean_scholar_csv_keeps_duplicates :
    (clean_scholar_csv [dupFirst, dupSecond]).length = 2 ∧
    ((clean_scholar_csv [dupFirst, dupSecond]).filter
        (fun row => row.profile_id == "p")).length = 2 ∧
    ((clean_scholar_csv [dupFirst, dupSecond]).map fun row => row.name)
        = [some "A", none] ∧
    ((clean_scholar_csv [dupFirst, dupSecond]).map fun row => row.email)
        = ["first@x.edu", "second@x.edu"] := by
  decide

/-- C2: the claim fails on the code: `wait_if_needed` appends the timestamp
captured before sleeping.  Ten back-to-back calls at time 0 followed by one
at time 50: the eleventh sleeps 10 seconds — until the oldest entry is
exactly 60 seconds old, as the claim's first half describes — but then
records its pre-sleep timestamp 50, leaving eleven recorded timestamps
inside the 50-second span [0, 50], i.e. eleven timestamps within a single
60-second window, which the claim's second half rules out. -/
theorem rate_limiter_eleven_in_window :
    (runRateLimiter 10 60 (List.replicate 10 0 ++ [50]) []).1.getLast? = some 10 ∧
    (runRateLimiter 10 60 (List.replicate 10 0 ++ [50]) []).2
        = List.replicate 10 (0 : ℤ) ++ [50] ∧
    (runRateLimiter 10 60 (List.replicate 10 0 ++ [50]) []).2.length = 11 ∧
    (∀ t ∈ (runRateLimiter 10 60 (List.replicate 10 0 ++ [50]) []).2,
      (0 : ℤ) ≤ t ∧ t ≤ 50) := by
  decide

set_option maxRecDepth 4000 in
/-- C3 counterexample: a 200-character single-line content against budget 10
(twenty times the budget) returns the empty string: the filtering loop collects nothing
(no main-content marker), the middle quartile slice of the single line list
is empty, and the head-tail branch is never reached — the result does not
contain the truncation marker at all, against the claimed "marker present
exactly once" for every content far above the budget. -/
theorem truncate_content_marker_missing :
    truncate_content (String.mk (List.replicate 200 'x')) 10 = "" ∧
    containsSub truncMarker
      (truncate_content (String.mk (List.replicate 200 'x')) 10).data = false := by
  decide

/-- C3 amended: content at or below the budget is returned unchanged; content
above a positive budget yields either a result of length at most the budget —
which can lack the truncation marker entirely — or the head-tail form
`head ++ marker ++ tail` with `⌊budget/2⌋` head and `⌈budget/2⌉` tail
characters, whose total length is budget + 27: it exceeds the budget by the
27 characters of the inserted marker. -/
theorem truncate_content_amended (content : String) (maxChars : Nat)
    (hpos : 1 ≤ maxChars) :
    (content.data.length ≤ maxChars → truncate_content content maxChars = content) ∧
    (maxChars < content.data.length →
      (truncate_content content maxChars).data.length ≤ maxChars ∨
      ((truncate_content content maxChars).data.length = maxChars + 27 ∧
       ∃ h t, (truncate_content content maxChars).data = h ++ truncMarker ++ t ∧
         h.length = maxChars / 2 ∧ t.length = (maxChars + 1) / 2)) := by
  constructor
  · intro hle
    unfold truncate_content
    rw [if_pos]
    simp only [Bool.or_eq_true, List.isEmpty_iff, decide_eq_true_eq]
    right
    exact hle
  · intro hgt
    unfold truncate_content
    have hcond : ¬(content.data.isEmpty || decide (content.data.length ≤ maxChars)) = true := by
      simp only [Bool.or_eq_true, List.isEmpty_iff, decide_eq_true_eq]
      rintro (h1 | h2)
      · rw [h1] at hgt
        simp at hgt
      · omega
    rw [if_neg hcond]
    by_cases hr : maxChars < (truncResult content.data maxChars).length
    · right
      rw [if_pos hr]
      have hsl := pySliceFrom_neg_half (truncResult content.data maxChars) maxChars
        hpos (by omega)
      constructor
      · show (List.take (maxChars / 2) (truncResult content.data maxChars) ++ truncMarker ++
          pySliceFrom (truncResult content.data maxChars) (Int.fdiv (-(maxChars : Int)) 2)).length
            = maxChars + 27
        rw [List.length_append, List.length_append, List.length_take, hsl.2]
        have hml : truncMarker.length = 27 := by decide
        rw [hml]
        omega
      · exact ⟨List.take (maxChars / 2) (truncResult content.data maxChars),
          pySliceFrom (truncResult content.data maxChars) (Int.fdiv (-(maxChars : Int)) 2),
          rfl, by rw [List.length_take]; omega, hsl.2⟩
    · left
      rw [if_neg hr]
      show (truncResult content.data maxChars).length ≤ maxChars
      omega

/-- Witness for the amended C3 theorem: a content within the budget passes
through unchanged. -/
theorem truncate_content_amended_witness :
    truncate_content "abc" 10 = "abc" :=
  (truncate_content_amended "abc" 10 (by decide)).1 (by decide)

/-- C4: Tier-2 email normalization yields exactly the de-obfuscated address
for inputs in the supported pattern set — on the claim's own example
`"jdoe [at] cs [dot] stanford [dot] edu"` it returns
`"jdoe@cs.stanford.edu"` — and in general returns precisely the
de-obfuscation of the input when that validates against the address grammar
and absent (`none`) for every input whose de-obfuscation does not
validate. -/
theorem normalize_obfuscated_email_correct :
    normalize_obfuscated_email "jdoe [at] cs [dot] stanford [dot] edu"
        = some "jdoe@cs.stanford.edu" ∧
    (∀ s : String, emailMatch (deobfuscate s.data) = true →
      normalize_obfuscated_email s = some (String.mk (deobfuscate s.data))) ∧
    (∀ s : String, emailMatch (deobfuscate s.data) = false →
      normalize_obfuscated_email s = none) := by
  refine ⟨by decide, fun s h => ?_, fun s h => ?_⟩ <;>
    simp [normalize_obfuscated_email, h]

/-- Witness for C4 at a concrete obfuscated input. -/
theorem normalize_obfuscated_email_correct_witness :
    normalize_obfuscated_email "a [at] b [dot] de"
        = some (String.mk (deobfuscate "a [at] b [dot] de".data)) :=
  normalize_obfuscated_email_correct.2.1 "a [at] b [dot] de" (by decide)

/-- C5 counterexample: Tier 1 succeeded but extracted no fields and Tier 2
is unavailable, yet the merged record's position is "Lecturer" — the value
the profile page supplied — where the claim requires a field missing from
both tiers to be absent. -/
theorem merge_profile_value_persists :
    (get_profile_details_merge profilePageBase (some ({} : ExtractedData)) none).position
        = "Lecturer" ∧ ("Lecturer" : String) ≠ "" := by
  decide

/-- C5 amended: for each of the schema fields, Tier 1's value wins when
non-empty; otherwise the field keeps the value already parsed from the
profile page (which may be empty, i.e. absent); the Tier 2 fallback applies
only to the email and only when both Tier 1's email and the profile-page
email are empty.  The claim's example merge — Tier 1 position "Professor",
Tier 2 email "x@y.com" — is reproduced verbatim. -/
theorem merge_precedence_amended (base : Researcher) (d : ExtractedData)
    (t2 : Option String) (hw : base.website ≠ "") :
    ((d.position.getD "" ≠ "" →
        (get_profile_details_merge base (some d) t2).position = d.position.getD "") ∧
     (d.position.getD "" = "" →
        (get_profile_details_merge base (some d) t2).position = base.position)) ∧
    ((d.institute.getD "" ≠ "" →
        (get_profile_details_merge base (some d) t2).institute = d.institute.getD "") ∧
     (d.institute.getD "" = "" →
        (get_profile_details_merge base (some d) t2).institute = base.institute)) ∧
    ((d.department.getD "" ≠ "" →
        (get_profile_details_merge base (some d) t2).department = d.department.getD "") ∧
     (d.department.getD "" = "" →
        (get_profile_details_merge base (some d) t2).department = base.department)) ∧
    ((d.advisor.getD "" ≠ "" →
        (get_profile_details_merge base (some d) t2).advisor = d.advisor.getD "") ∧
     (d.advisor.getD "" = "" →
        (get_profile_details_merge base (some d) t2).advisor = base.advisor)) ∧
    ((d.interests.getD "" ≠ "" →
        (get_profile_details_merge base (some d) t2).interests = d.interests.getD "") ∧
     (d.interests.getD "" = "" →
        (get_profile_details_merge base (some d) t2).interests = base.interests)) ∧
    ((d.email.getD "" ≠ "" →
        (get_profile_details_merge base (some d) t2).email = d.email.getD "") ∧
     (d.email.getD "" = "" → base.email ≠ "" →
        (get_profile_details_merge base (some d) t2).email = base.email) ∧
     (d.email.getD "" = "" → base.email = "" →
        (get_profile_details_merge base (some d) t2).email = t2.getD "")) ∧
    ((get_profile_details_merge crawlFailedBase (some tierOnePosition)
        (some "x@y.com")).position = "Professor" ∧
     (get_profile_details_merge crawlFailedBase (some tierOnePosition)
        (some "x@y.com")).email = "x@y.com") := by
  rw [merge_fields base d t2 hw]
  exact ⟨⟨fun h => by simp [keepNonempty, h], fun h => by simp [keepNonempty, h]⟩,
    ⟨fun h => by simp [keepNonempty, h], fun h => by simp [keepNonempty, h]⟩,
    ⟨fun h => by simp [keepNonempty, h], fun h => by simp [keepNonempty, h]⟩,
    ⟨fun h => by simp [keepNonempty, h], fun h => by simp [keepNonempty, h]⟩,
    ⟨fun h => by simp [keepNonempty, h], fun h => by simp [keepNonempty, h]⟩,
    ⟨fun h => by simp [keepNonempty, h], fun h hb => by simp [keepNonempty, h, hb],
     fun h hb => by cases t2 <;> simp [keepNonempty, h, hb]⟩,
    by decide, by decide⟩

/-- Witness for the amended C5 theorem: the claim's example merge. -/
theorem merge_precedence_amended_witness :
    (get_profile_details_merge crawlFailedBase (some tierOnePosition)
        (some "x@y.com")).position = "Professor" ∧
    (get_profile_details_merge crawlFailedBase (some tierOnePosition)
        (some "x@y.com")).email = "x@y.com" :=
  (merge_precedence_amended crawlFailedBase tierOnePosition (some "x@y.com")
      (by decide)).2.2.2.2.2.2

/-- C6 counterexample: a source answering every page with the same non-empty
cursor "TOKEN": the walker does not stop after the cursor repeats on
consecutive pages — with a page budget of 5 it requests all five pages. -/
theorem cursor_repeat_not_guarded :
    (search_researchers_by_label constCursorSrc id 5).fetched = [0, 1, 2, 3, 4] ∧
    ("TOKEN" : String) ≠ "" := by
  decide

/-- C6 amended: the walk stops only when the next cursor is empty or when the
page budget is exhausted; no repeated-cursor guard exists, so whenever every
page parses with a non-empty token — identical consecutive tokens included —
the walker requests every page of its budget. -/
theorem pagination_termination_amended {α : Type}
    (src : Nat → Except Unit (List α × String)) (details : α → α) (pages : Nat) :
    (search_researchers_by_label src details pages).fetched.length ≤ pages ∧
    ((∀ i, i < pages → ∃ stubs tok, src i = Except.ok (stubs, tok) ∧ tok ≠ "") →
      (search_researchers_by_label src details pages).fetched = List.range pages) := by
  constructor
  · have h := searchLoop_fetched_le src details pages 0 [] [] []
    simpa [search_researchers_by_label] using h
  · intro hok
    unfold search_researchers_by_label
    rw [searchLoop_all_ok src details pages 0 [] [] []
      (fun i h1 h2 => hok i (by omega))]
    simp [List.range_eq_range']

/-- Witness for the amended C6 theorem: with the constant-cursor source and a
budget of 2 both pages are fetched. -/
theorem pagination_termination_amended_witness :
    (search_researchers_by_label constCursorSrc id 2).fetched = List.range 2 :=
  (pagination_termination_amended constCursorSrc id 2).2
    (fun i h => ⟨["stub"], "TOKEN", rfl, by decide⟩)

/-- C7 counterexample, both halves of the claim at concrete inputs.  Page 1
failing after a successful page 0 (budget 3): the collected records are
checkpointed but page 2 is still requested afterwards — pagination does not
stop at the failing page.  Page 0 failing with nothing collected (budget 3):
`save_results` itself raises — `sort_values('name')` on the columnless
empty frame — inside the except handler, so the crawl aborts with no
checkpoint written and no further page requested: the records are not
preserved "before the error is handled further". -/
theorem page_failure_paginates_on :
    ((search_researchers_by_label okFailOkSrc id 3).fetched = [0, 1, 2] ∧
     (search_researchers_by_label okFailOkSrc id 3).checkpoints = [["stub"]] ∧
     (search_researchers_by_label okFailOkSrc id 3).aborted = false) ∧
    ((search_researchers_by_label failThenOkSrc id 3).fetched = [0] ∧
     (search_researchers_by_label failThenOkSrc id 3).checkpoints = [] ∧
     (search_researchers_by_label failThenOkSrc id 3).aborted = true) := by
  decide

/-- C7 amended: on a page-level failure with at least one record collected,
all records collected so far are checkpointed and the loop then moves on to
the next page (the failure stops neither the run nor the pagination); on a
page-level failure with nothing collected, `save_results` raises inside the
except handler and the crawl aborts on the spot, with no checkpoint written
and no further page requested. -/
theorem page_failure_checkpoint_amended {α : Type}
    (src : Nat → Except Unit (List α × String)) (details : α → α)
    (rem page : Nat) (res : List α) (cps : List (List α)) (fs : List Nat)
    (herr : src page = Except.error ()) :
    (res ≠ [] →
      searchLoop src details (rem + 1) page res cps fs
        = searchLoop src details rem (page + 1) res (cps ++ [res]) (fs ++ [page])) ∧
    (res = [] →
      searchLoop src details (rem + 1) page res cps fs
        = ⟨res, cps, fs ++ [page], true⟩) := by
  rw [searchLoop, herr]
  constructor
  · intro hres
    rw [if_neg (by simpa using hres)]
  · intro hres
    rw [if_pos (by simpa using hres)]

/-- Witness for the amended C7 theorem: at the mixed source's failing page 1
with one record collected, the loop checkpoints and continues. -/
theorem page_failure_checkpoint_amended_witness :
    searchLoop okFailOkSrc id 2 1 ["stub"] [] [0]
      = searchLoop okFailOkSrc id 1 2 ["stub"] [["stub"]] [0, 1] :=
  (page_failure_checkpoint_amended okFailOkSrc id 1 1 ["stub"] [] [0] rfl).1
    (by decide)

/-- C8 counterexample: the item was crawled (it has a website) but Tier 1
failed — `crawl_personal_page` returned the falsy empty dict — and Tier 2
yielded nothing: neither tier produced a classification, yet the merged
record's funding_likelihood is the empty string, not "Medium": the default
lives only on Tier 1's success path. -/
theorem funding_default_not_applied :
    (get_profile_details_merge crawlFailedBase none none).funding_likelihood = "" ∧
    ("" : String) ≠ "Medium" := by
  decide

/-- C8 amended: funding_likelihood is "Medium" whenever Tier 1 ran and
returned a dict whose extraction produced no classification; when Tier 1 was
skipped (no website) or failed outright, the field keeps the base record's
value — the empty string. -/
theorem funding_default_amended (base : Researcher) (d : ExtractedData)
    (t2 : Option String) :
    (base.website ≠ "" → d.funding_likelihood = none →
      (get_profile_details_merge base (some d) t2).funding_likelihood = "Medium") ∧
    ((get_profile_details_merge base none t2).funding_likelihood
        = base.funding_likelihood) ∧
    (base.website = "" →
      (get_profile_details_merge base (some d) t2).funding_likelihood
        = base.funding_likelihood) := by
  refine ⟨fun hw hf => ?_, ?_, fun hw => ?_⟩
  · rw [merge_fields base d t2 hw]
    simp [hf]
  · rw [merge_no_tier1]
    rcases t2 with _ | e <;> by_cases hc : base.email = "" ∧ base.website ≠ "" <;>
      simp [hc]
  · rw [merge_no_website base _ _ hw]

/-- Witness for the amended C8 theorem: a successful Tier-1 crawl with no
classification defaults the field to "Medium". -/
theorem funding_default_amended_witness :
    (get_profile_details_merge stubCarriedBase (some ({} : ExtractedData))
        none).funding_likelihood = "Medium" :=
  (funding_default_amended stubCarriedBase {} none).1 (by decide) rfl

/-- C9 counterexample: before the tiers ran, the record had no source_url
(the discovered stub carries only name, profile_url and profile_id); after a
successful Tier-1 crawl the merged record's source_url equals the crawled
website URL: the value originates from the Tier-1 result dict, not from the
stub, against the claim that neither tier supplies it. -/
theorem source_url_supplied_by_tier1 :
    stubCarriedBase.source_url = "" ∧
    (get_profile_details_merge stubCarriedBase (some ({} : ExtractedData))
        none).source_url = "http://three.example" := by
  decide

/-- C9 amended: the identity key profile_id — and likewise profile_url and
name — is carried through the merge unchanged, never supplied by either
tier; the source_url column, by contrast, is set by the Tier-1 result dict
to the website URL the crawl was given whenever Tier 1 succeeds. -/
theorem identity_fields_amended (base : Researcher) (t1 : Option ExtractedData)
    (t2 : Option String) :
    (get_profile_details_merge base t1 t2).profile_id = base.profile_id ∧
    (get_profile_details_merge base t1 t2).profile_url = base.profile_url ∧
    (get_profile_details_merge base t1 t2).name = base.name ∧
    (∀ d, t1 = some d → base.website ≠ "" →
      (get_profile_details_merge base t1 t2).source_url = base.website) := by
  by_cases hw : base.website = ""
  · rw [merge_no_website base t1 t2 hw]
    exact ⟨rfl, rfl, rfl, fun d hd hww => absurd hw hww⟩
  · rcases t1 with _ | d
    · rw [merge_no_tier1]
      rcases t2 with _ | e <;> by_cases hc : base.email = "" ∧ base.website ≠ "" <;>
        simp [hc]
    · rw [merge_fields base d t2 hw]
      exact ⟨rfl, rfl, rfl, fun d1 hd hww => rfl⟩

/-- Witness for the amended C9 theorem at a concrete crawled record. -/
theorem identity_fields_amended_witness :
    (get_profile_details_merge stubCarriedBase (some ({} : ExtractedData))
        none).profile_id = stubCarriedBase.profile_id ∧
    (get_profile_details_merge stubCarriedBase (some ({} : ExtractedData))
        none).source_url = stubCarriedBase.website :=
  ⟨(identity_fields_amended stubCarriedBase (some {}) none).1,
   (identity_fields_amended stubCarriedBase (some {}) none).2.2.2 {} rfl (by decide)⟩

set_option maxHeartbeats 1000000 in
/-- C10: `normalize_obfuscated_email` is total (it returns an optional
string for every input) and canonicalizes successful results: every returned
string contains no ASCII upper-case letter and no whitespace and matches the
validating address grammar — so mixed-case obfuscated input never yields an
email preserving its original casing. -/
theorem normalize_obfuscated_email_canonical (s r : String)
    (h : normalize_obfuscated_email s = some r) :
    (∀ c ∈ r.data, ¬(65 ≤ c.toNat ∧ c.toNat ≤ 90)) ∧
    (∀ c ∈ r.data, isPySpace c = false) ∧
    emailMatch r.data = true := by
  have hsplit : emailMatch (deobfuscate s.data) = true ∧
      r = String.mk (deobfuscate s.data) := by
    by_cases hm : emailMatch (deobfuscate s.data) = true
    · refine ⟨hm, ?_⟩
      have h1 := h
      simp only [normalize_obfuscated_email, hm, if_true] at h1
      exact (Option.some.inj h1).symm
    · exfalso
      simp only [normalize_obfuscated_email, Bool.not_eq_true] at h
      rw [Bool.not_eq_true] at hm
      rw [hm] at h
      simp at h
  obtain ⟨hm, rfl⟩ := hsplit
  have hmk : ∀ l : List Char, (String.mk l).data = l := fun l => rfl
  refine ⟨?_, ?_, by rw [hmk]; exact hm⟩
  · intro c hc
    rw [hmk] at hc
    have hc1 := hc
    unfold deobfuscate at hc1
    have hc2 := (List.mem_filter.mp hc1).1
    rcases mem_applyReplacements obfuscationPats _ c hc2 with hst | ⟨pr, hpr, hcp⟩
    · have hc3 := mem_pyStrip _ c hst
      rcases mem_applyReplacements removalPats _ c hc3 with hlo | ⟨pr, hpr, hcp⟩
      · obtain ⟨d, _, rfl⟩ := mem_lowerChars _ c hlo
        exact toLower_not_upper d
      · simp only [removalPats, List.mem_cons, List.not_mem_nil, or_false] at hpr
        rcases hpr with rfl | rfl | rfl <;> simp at hcp
    · simp only [obfuscationPats, List.mem_cons, List.not_mem_nil, or_false] at hpr
      rcases hpr with rfl | rfl | rfl | rfl | rfl | rfl | rfl <;>
        simp only [String.data] at hcp <;>
        rcases List.mem_singleton.mp hcp with rfl <;> decide
  · intro c hc
    rw [hmk] at hc
    have hc1 := hc
    unfold deobfuscate at hc1
    have hws := (List.mem_filter.mp hc1).2
    simpa using hws

/-- Witness for C10 at a mixed-case obfuscated input: the result is the
lower-cased canonical address, matching the grammar. -/
theorem normalize_obfuscated_email_canonical_witness :
    emailMatch ("jdoe@cs.stanford.edu" : String).data = true :=
  (normalize_obfuscated_email_canonical "JDoe [AT] CS [DOT] Stanford [DOT] EDU"
      "jdoe@cs.stanford.edu" (by decide)).2.2

end PositionScraper
